import Mathlib

/-!
# Backlink Normalization & Risk-Scoring Pipeline — verification

Shallow embedding of the core decision logic of `src/main.py`:
the risk classifier (`calculate_risk_level`), the column mapper
(`colmap_candidates` / `pick`), the import loop (`import_backlinks`),
the aggregation pass (`backlinks_summary`), and the competitor gap
simulator (`CompetitorAnalyzer.analyze_domain_authority` /
`generate_link_opportunities`).

Machine integers are modelled as `Int` (Python ints are unbounded);
Python's `%` on a positive modulus agrees with Lean's `Int.emod`.
Python's process-salted builtin `hash` on strings is modelled as an
explicit parameter `h : String → Int`: each process corresponds to one
such function, so properties that hold for every `h` hold in every
process, and dependence of a result on `h` exhibits cross-process
nondeterminism.
-/

/-- `leadsWith p l`: the character list `p` is an initial segment of
`l` (Python's `str.startswith`, on exploded strings). -/
def leadsWith : List Char → List Char → Bool
  | [], _ => true
  | _ :: _, [] => false
  | p :: ps, c :: cs => p == c && leadsWith ps cs

/-- `hasInfix pat hay`: the character list `pat` occurs contiguously in
`hay`. -/
def hasInfix (pat : List Char) : List Char → Bool
  | [] => pat.isEmpty
  | c :: rest => leadsWith pat (c :: rest) || hasInfix pat rest

/-- Substring containment: Python's `pat in hay`.  (Implemented over
exploded character lists so that it evaluates by kernel reduction.) -/
def containsSub (hay pat : String) : Bool :=
  hasInfix pat.data hay.data

/-- Python's `s.startswith(p)`. -/
def startsWithStr (s p : String) : Bool :=
  leadsWith p.data s.data

/-- Python's `s.lower()` (ASCII case folding, as in the anchors and
keywords at hand). -/
def strLower (s : String) : String :=
  ⟨s.data.map Char.toLower⟩

/-- Membership of an optional link type in `["footer", "sidebar"]`;
Python's `link_type in ["footer", "sidebar"]` is `False` for `None`. -/
def isFooterSidebar : Option String → Bool
  | some s => s == "footer" || s == "sidebar"
  | none => false

/-- `calculate_risk_level` (src/main.py:327-347), translated clause by
clause.  `nofollow` is `Optional[bool]`; Python's `if nofollow and ...`
fires only when it is `True`, i.e. `some true`. -/
def calculate_risk_level (domain_authority : Option Int) (nofollow : Option Bool)
    (link_type : Option String) : String :=
  let da := domain_authority.getD 0
  if da < 10 then "high"
  else if nofollow == some true && da < 20 then "high"
  else if isFooterSidebar link_type && da < 30 then "high"
  else if da < 30 then "medium"
  else if isFooterSidebar link_type then "medium"
  else "low"

/-- First-match evaluation of an ordered rule list with a default,
used to state the spec's "first match wins, evaluated top to bottom". -/
def firstMatch {α : Type} : List (Bool × α) → α → α
  | [], d => d
  | (c, r) :: rest, d => if c then r else firstMatch rest d

/-- The risk classifier as the spec words it: the six rules in order,
over the defaulted domain authority `da`, the truthiness of `nofollow`
and whether the link type is footer/sidebar. -/
def classifyRiskSpec (domain_authority : Option Int) (nofollow : Option Bool)
    (link_type : Option String) : String :=
  let da := domain_authority.getD 0
  let nf := nofollow == some true
  let fs := isFooterSidebar link_type
  firstMatch
    [(decide (da < 10), "high"),
     (nf && decide (da < 20), "high"),
     (fs && decide (da < 30), "high"),
     (decide (da < 30), "medium"),
     (fs, "medium")]
    "low"

/-- C1 counterexample: the claim's worked example
`classifyRisk(25, false, "footer") = medium` is false on the code —
rule 3 (`link_type ∈ {footer, sidebar} AND domain_authority < 30`)
fires at DA 25 and returns high. -/
theorem classify_footer_da25_not_medium :
    calculate_risk_level (some 25) (some false) (some "footer") ≠ "medium" := by
  decide

/-- C1 (amended): for every domain authority (missing treated as 0),
nofollow flag and link type, `calculate_risk_level` agrees with the
spec's six rules evaluated top to bottom with the first match winning;
the worked examples are (5, false, editorial) ↦ high, (25, true,
contextual) ↦ medium, (25, false, footer) ↦ high (rule 3 fires, since
25 < 30), and (60, false, editorial) ↦ low. -/
theorem calculate_risk_level_matches_spec_rules :
    (∀ (da : Option Int) (nf : Option Bool) (lt : Option String),
      calculate_risk_level da nf lt = classifyRiskSpec da nf lt) ∧
    calculate_risk_level (some 5) (some false) (some "editorial") = "high" ∧
    calculate_risk_level (some 25) (some true) (some "contextual") = "medium" ∧
    calculate_risk_level (some 25) (some false) (some "footer") = "high" ∧
    calculate_risk_level (some 60) (some false) (some "editorial") = "low" := by
  refine ⟨fun da nf lt => ?_, by decide, by decide, by decide, by decide⟩
  simp only [calculate_risk_level, classifyRiskSpec, firstMatch]
  split_ifs <;> simp_all <;> omega

/-! ## Aggregation Engine: anchor-text bucketing and summary counts -/

/-- The five anchor-text buckets of the summary report
(src/main.py:707). -/
inductive Bucket
  | branded
  | exactMatch
  | partMatch
  | generic
  | nakedUrl
deriving DecidableEq, Repr

/-- Cut a character list at whitespace characters, keeping empty
pieces. -/
def wsSplit : List Char → List Char → List (List Char)
  | cur, [] => [cur.reverse]
  | cur, c :: cs =>
    if c.isWhitespace then cur.reverse :: wsSplit [] cs else wsSplit (c :: cur) cs

/-- Python's `a.split()` with no argument: split on runs of whitespace,
dropping empty pieces. -/
def pyTokens (a : String) : List String :=
  ((wsSplit [] a.data).filter (fun t => t ≠ [])).map (fun t => ⟨t⟩)

/-- The "naive anchor bucket" branch of `backlinks_summary`
(src/main.py:712-723), translated clause by clause:
`a = (anchor_text or "").lower()`, then the if/elif chain. -/
def anchorBucket (anchor_text : Option String) : Bucket :=
  let a := strLower (anchor_text.getD "")
  if a == "" || startsWithStr a "http" then .nakedUrl
  else if (pyTokens a).length == 1 then .exactMatch
  else if ["click here", "read more", "visit site"].any (fun k => containsSub a k) then .generic
  else if ["brand", "inc", "llc"].any (fun k => containsSub a k) then .branded
  else .partMatch

/-- The anchor bucketing as the spec words it: the five rules in
order, first match wins, default Partial Match. -/
def bucketSpec (anchor_text : Option String) : Bucket :=
  let a := strLower (anchor_text.getD "")
  firstMatch
    [(a == "" || startsWithStr a "http", Bucket.nakedUrl),
     ((pyTokens a).length == 1, Bucket.exactMatch),
     (["click here", "read more", "visit site"].any (fun k => containsSub a k), Bucket.generic),
     (["brand", "inc", "llc"].any (fun k => containsSub a k), Bucket.branded)]
    Bucket.partMatch

/-- C8: every anchor text is assigned exactly one bucket by the first
matching rule in the spec's order, and the worked examples hold:
"" ↦ Naked URL, "SEO" ↦ Exact Match, "click here now" ↦ Generic,
"Acme Inc guide" ↦ Branded, "complete guide to things" ↦ Partial
Match. -/
theorem anchorBucket_matches_spec_rules :
    (∀ anchor_text : Option String, anchorBucket anchor_text = bucketSpec anchor_text) ∧
    anchorBucket (some "") = Bucket.nakedUrl ∧
    anchorBucket (some "SEO") = Bucket.exactMatch ∧
    anchorBucket (some "click here now") = Bucket.generic ∧
    anchorBucket (some "Acme Inc guide") = Bucket.branded ∧
    anchorBucket (some "complete guide to things") = Bucket.partMatch := by
  refine ⟨fun a => rfl, by decide, by decide, by decide, by decide, by decide⟩

/-- A cell of a tabular batch as pandas delivers it: a string, a
number, or NaN (the value a CSV row carries in a column it leaves
empty). -/
inductive CellValue
  | str (s : String)
  | int (n : Int)
  | nan
deriving DecidableEq, Repr

/-- The `date_found` value of a record: either the cell the `date_found`
column carried, or the ingestion time `datetime.now(timezone.utc)` used
when no date column is mapped (src/main.py:679).  (Which date strings
`pd.to_datetime` accepts is not modelled; no claim depends on it.) -/
inductive DateVal
  | cellDate (v : CellValue)
  | ingestionTime
deriving DecidableEq, Repr

/-- The `Backlink` row model (src/main.py:33-43), minus the surrogate
`id` column.  `risk_level` is `Optional[str]` in the source. -/
structure Backlink where
  backlink_source : String
  anchor_text : Option String := none
  target_url : Option String := none
  domain_authority : Option Int := none
  nofollow : Option Bool := none
  date_found : Option DateVal := none
  link_type : Option String := none
  source_domain : Option String := none
  risk_level : Option String := none
deriving DecidableEq, Repr

/-- The three risk-tier counters of `backlinks_summary`
(src/main.py:706). -/
structure RiskCounts where
  low : Nat
  medium : Nat
  high : Nat
deriving DecidableEq, Repr

/-- The five anchor-bucket counters of `backlinks_summary`
(src/main.py:707). -/
structure AnchorCounts where
  branded : Nat
  exactMatch : Nat
  partMatch : Nat
  generic : Nat
  nakedUrl : Nat
deriving DecidableEq, Repr

/-- One iteration of the risk loop (src/main.py:710-711): count the
row only when `risk_level` is truthy (neither `None` nor `""`).  A
truthy value other than low/medium/high lands in a dict key the
report never reads, so it bumps none of the three reported
counters. -/
def bumpRisk (c : RiskCounts) (rl : Option String) : RiskCounts :=
  match rl with
  | none => c
  | some s =>
    if s = "" then c
    else if s = "low" then { c with low := c.low + 1 }
    else if s = "medium" then { c with medium := c.medium + 1 }
    else if s = "high" then { c with high := c.high + 1 }
    else c

/-- One iteration of the anchor loop (src/main.py:713-723): bump the
bucket `anchorBucket` selects. -/
def bumpAnchor (c : AnchorCounts) (anchor_text : Option String) : AnchorCounts :=
  match anchorBucket anchor_text with
  | .branded => { c with branded := c.branded + 1 }
  | .exactMatch => { c with exactMatch := c.exactMatch + 1 }
  | .partMatch => { c with partMatch := c.partMatch + 1 }
  | .generic => { c with generic := c.generic + 1 }
  | .nakedUrl => { c with nakedUrl := c.nakedUrl + 1 }

/-- The summary report of `backlinks_summary` (src/main.py:731-742),
flattened: cards, health scorecard (healthy/warning/toxic are the
low/medium/high counters) and anchor distribution. -/
structure Summary where
  total : Nat
  referring_domains : Nat
  avg_da : Int
  low : Nat
  medium : Nat
  high : Nat
  anchors : AnchorCounts
deriving DecidableEq, Repr

/-- `backlinks_summary` (src/main.py:701-742) over the record set the
store returns: one pass accumulating risk and anchor counters, then
the derived cards.  `int(sum/total)` truncates toward zero, `Int.tdiv`;
`referring_domains` counts distinct truthy `source_domain` values. -/
def backlinks_summary (rows : List Backlink) : Summary :=
  let by_risk := rows.foldl (fun c r => bumpRisk c r.risk_level) ⟨0, 0, 0⟩
  let anchors := rows.foldl (fun c r => bumpAnchor c r.anchor_text) ⟨0, 0, 0, 0, 0⟩
  let total := rows.length
  { total := total
    referring_domains :=
      ((rows.filterMap (fun r => r.source_domain)).filter (fun s => s ≠ "")).dedup.length
    avg_da :=
      if total = 0 then 0
      else Int.tdiv (rows.foldl (fun s r => s + r.domain_authority.getD 0) 0) total
    low := by_risk.low
    medium := by_risk.medium
    high := by_risk.high
    anchors := anchors }

/-- Sum of the three reported risk counters. -/
def RiskCounts.sum (c : RiskCounts) : Nat :=
  c.low + c.medium + c.high

/-- Sum of the five anchor-bucket counters. -/
def AnchorCounts.sum (c : AnchorCounts) : Nat :=
  c.branded + c.exactMatch + c.partMatch + c.generic + c.nakedUrl

/-- A record whose `risk_level` is one of the three tiers bumps the
risk sum by one. -/
lemma riskFold_sum (rows : List Backlink) :
    ∀ c : RiskCounts,
      (∀ r ∈ rows, r.risk_level = some "low" ∨ r.risk_level = some "medium" ∨
        r.risk_level = some "high") →
      (rows.foldl (fun c r => bumpRisk c r.risk_level) c).sum = c.sum + rows.length := by
  induction rows with
  | nil => intro c _; simp
  | cons r rs ih =>
    intro c h
    have hr := h r (by simp)
    have hrest := fun x hx => h x (List.mem_cons_of_mem _ hx)
    simp only [List.foldl_cons, List.length_cons]
    rcases hr with h1 | h1 | h1 <;>
      rw [ih _ hrest] <;> simp [bumpRisk, h1, RiskCounts.sum] <;> omega

/-- Every record bumps exactly one anchor-bucket counter. -/
lemma anchorFold_sum (rows : List Backlink) :
    ∀ c : AnchorCounts,
      (rows.foldl (fun c r => bumpAnchor c r.anchor_text) c).sum = c.sum + rows.length := by
  induction rows with
  | nil => intro c; simp
  | cons r rs ih =>
    intro c
    simp only [List.foldl_cons, List.length_cons]
    rw [ih]
    cases hb : anchorBucket r.anchor_text <;>
      simp [bumpAnchor, hb, AnchorCounts.sum] <;> omega

/-- A record with a null risk tier (allowed by the row model,
`risk_level: Optional[str] = None`). -/
def nullRiskRow : Backlink :=
  { backlink_source := "https://x.example/a" }

/-- C2 counterexample: on the record set `[nullRiskRow]` the sum of the
reported risk-tier counts is 0 while the total is 1 — the loop counts a
record's tier only when `risk_level` is truthy. -/
theorem summary_risk_sum_ne_total_on_null_risk :
    (backlinks_summary [nullRiskRow]).low + (backlinks_summary [nullRiskRow]).medium +
      (backlinks_summary [nullRiskRow]).high ≠ (backlinks_summary [nullRiskRow]).total := by
  decide

/-- C2 (amended): for every record set, the five anchor-bucket counts
sum to the total record count; the three risk-tier counts sum to the
total whenever every record's `risk_level` is one of low/medium/high
(as holds for every record the importer or the seed data creates) —
records whose `risk_level` is null or a non-tier string are left out
of the three reported tier counters. -/
theorem summary_counts_sum_to_total (rows : List Backlink) :
    (backlinks_summary rows).anchors.sum = (backlinks_summary rows).total ∧
    ((∀ r ∈ rows, r.risk_level = some "low" ∨ r.risk_level = some "medium" ∨
        r.risk_level = some "high") →
      (backlinks_summary rows).low + (backlinks_summary rows).medium +
        (backlinks_summary rows).high = (backlinks_summary rows).total) := by
  constructor
  · simp only [backlinks_summary]
    rw [anchorFold_sum]
    simp [AnchorCounts.sum]
  · intro h
    have := riskFold_sum rows ⟨0, 0, 0⟩ h
    simp only [backlinks_summary]
    simp only [RiskCounts.sum] at this
    omega

/-- A record with a low risk tier and a two-word anchor. -/
def lowRiskRow : Backlink where
  backlink_source := "https://q.example/b"
  anchor_text := some "financial planning"
  risk_level := some "low"

/-- Witness for the amended C2 at a concrete record set. -/
theorem summary_counts_sum_to_total_witness :
    (backlinks_summary [lowRiskRow]).low + (backlinks_summary [lowRiskRow]).medium +
      (backlinks_summary [lowRiskRow]).high = (backlinks_summary [lowRiskRow]).total :=
  (summary_counts_sum_to_total _).2 (by decide)

/-! ## Schema Mapper: column-alias resolution -/

/-- The alias table `colmap_candidates` (src/main.py:645-654), verbatim:
canonical field name paired with its ordered alias list. -/
def colmap_candidates : List (String × List String) :=
  [("backlink_source", ["backlink_source", "url_from", "source_url", "referring_page", "Backlink"]),
   ("anchor_text", ["anchor_text", "anchor", "text"]),
   ("target_url", ["target_url", "url_to", "target", "Destination URL"]),
   ("domain_authority", ["domain_authority", "da", "Domain Authority", "Authority Score", "Domain Rating"]),
   ("nofollow", ["nofollow", "is_nofollow", "nofollow?"]),
   ("date_found", ["date_found", "first_seen", "Found On", "First seen"]),
   ("link_type", ["link_type", "type", "Link Type"]),
   ("source_domain", ["source_domain", "domain_from", "Referring Domain", "root_domain"])]

/-- `pick` (src/main.py:656-661): the first candidate key that is
among the available column names, else `None`.  Membership is
case-sensitive exact equality, as Python's `k in series` is on an
Index of column names. -/
def pick (cols : List String) : List String → Option String
  | [] => none
  | k :: rest => if k ∈ cols then some k else pick cols rest

/-- `pick` returns `none` exactly when no candidate key is among the
available columns. -/
lemma pick_eq_none_iff (cols keys : List String) :
    pick cols keys = none ↔ ∀ k ∈ keys, k ∉ cols := by
  induction keys with
  | nil => simp [pick]
  | cons k rest ih =>
    simp only [pick]
    by_cases hk : k ∈ cols
    · simp [hk]
    · simp [hk, ih]

/-- `pick` returns `some k` exactly when `k` is an available alias and
every alias listed before it is unavailable. -/
lemma pick_eq_some_iff (cols keys : List String) (k : String) :
    pick cols keys = some k ↔
      ∃ pre post, keys = pre ++ k :: post ∧ k ∈ cols ∧ ∀ j ∈ pre, j ∉ cols := by
  induction keys with
  | nil => simp [pick]
  | cons a rest ih =>
    simp only [pick]
    by_cases ha : a ∈ cols
    · rw [if_pos ha]
      constructor
      · intro h
        obtain rfl : a = k := Option.some_inj.mp h
        exact ⟨[], rest, rfl, ha, by simp⟩
      · rintro ⟨pre, post, heq, hk, hpre⟩
        cases pre with
        | nil =>
          injection heq with h1 _
          rw [h1]
        | cons p ps =>
          injection heq with h1 _
          exact absurd ha (h1 ▸ hpre p (by simp))
    · rw [if_neg ha, ih]
      constructor
      · rintro ⟨pre, post, heq, hk, hpre⟩
        refine ⟨a :: pre, post, by simp [heq], hk, ?_⟩
        intro j hj
        rcases List.mem_cons.mp hj with rfl | hj
        · exact ha
        · exact hpre j hj
      · rintro ⟨pre, post, heq, hk, hpre⟩
        cases pre with
        | nil =>
          injection heq with h1 _
          exact absurd (h1 ▸ hk) ha
        | cons p ps =>
          injection heq with _ h2
          exact ⟨ps, post, h2, hk, fun j hj => hpre j (List.mem_cons_of_mem _ hj)⟩

/-- C9: for every set of available column names and every canonical
field of the alias table, the mapper resolves the field to the first
alias of the field's configured list that is present among the columns
(case-sensitive exact match, in the configured priority order) and to
`none` when no alias is present.  The resolution is a pure lookup:
`pick` is a function of its two arguments alone. -/
theorem pick_resolves_first_present_alias (cols : List String)
    (field : String) (aliases : List String)
    (hfield : (field, aliases) ∈ colmap_candidates) :
    (pick cols aliases = none ↔ ∀ k ∈ aliases, k ∉ cols) ∧
    ∀ k, pick cols aliases = some k →
      ∃ pre post, aliases = pre ++ k :: post ∧ k ∈ cols ∧ ∀ j ∈ pre, j ∉ cols := by
  exact ⟨pick_eq_none_iff cols aliases,
    fun k hk => (pick_eq_some_iff cols aliases k).mp hk⟩

/-- Witness for C9: with columns `["anchor", "da"]`, the
`anchor_text` field resolves past the unavailable alias
`anchor_text` to `anchor`. -/
theorem pick_resolves_first_present_alias_witness :
    ∃ pre post, ["anchor_text", "anchor", "text"] = pre ++ "anchor" :: post ∧
      "anchor" ∈ ["anchor", "da"] ∧ ∀ j ∈ pre, j ∉ ["anchor", "da"] :=
  (pick_resolves_first_present_alias ["anchor", "da"] "anchor_text"
    ["anchor_text", "anchor", "text"] (by decide)).2 "anchor" (by decide)

/-! ## Record Importer: batch import loop -/

/-- A tabular batch as `pd.read_csv` delivers it: the frame's column
names and one association row per CSV line.  Every row of a frame
carries a value for every frame column; a cell the CSV line leaves
empty is NaN. -/
structure Batch where
  columns : List String
  rows : List (List (String × CellValue))
deriving Repr

/-- `row[c]` for a frame column `c`: the row's cell, NaN when the CSV
line left it empty. -/
def getCell (row : List (String × CellValue)) (c : String) : CellValue :=
  (row.lookup c).getD CellValue.nan

/-- The alias list configured for a canonical field in
`colmap_candidates`. -/
def colAliases (field : String) : List String :=
  (colmap_candidates.lookup field).getD []

/-- Python's `int(x)` on a cell: numbers pass through, numeric strings
parse, NaN raises (`cannot convert float NaN to integer`). -/
def cellToInt : CellValue → Except String Int
  | .int n => .ok n
  | .str s =>
    match s.toInt? with
    | some n => .ok n
    | none => .error ("invalid literal for int: " ++ s)
  | .nan => .error "cannot convert float NaN to integer"

/-- Python's `str(x)` on a cell. -/
def pyStr : CellValue → String
  | .str s => s
  | .int n => toString n
  | .nan => "nan"

/-- Python truthiness of a cell: empty string and 0 are falsy, NaN is
truthy. -/
def cellTruthy : CellValue → Bool
  | .str s => s != ""
  | .int n => n != 0
  | .nan => true

/-- A cell read into an `Optional[str]` field: a string cell is kept;
an int cell is normalized to its decimal rendering and a NaN cell to
absent (each behaves identically to that normal form in every use the
classifier and the summary make of the field). -/
def cellOptStr : CellValue → Option String
  | .str s => some s
  | .int n => some (toString n)
  | .nan => none

/-- Strip leading and trailing whitespace (Python's `str.strip()`). -/
def trimChars (l : List Char) : List Char :=
  ((l.dropWhile Char.isWhitespace).reverse.dropWhile Char.isWhitespace).reverse

/-- `parse_bool` (src/main.py:349-354) on a cell (a cell is never
Python `None`, and a bool-typed cell does not arise from the CSV
frames modelled here): `str(x).strip().lower() in {"1","true","yes","y"}`. -/
def parse_bool (v : CellValue) : Bool :=
  (["1", "true", "yes", "y"]).contains (strLower ⟨trimChars (pyStr v).data⟩)

/-- `str(row.get("url", ""))`: the `url` cell when the frame has such
a column, else the empty string. -/
def urlFallback (row : List (String × CellValue)) : String :=
  match row.lookup "url" with
  | some v => pyStr v
  | none => ""

/-- Domain-authority extraction (src/main.py:669):
`int(row[daCol])` when a DA column is mapped, `None` otherwise; the
coercion is the fallible step of the row. -/
def extractDA (cols : List String) (row : List (String × CellValue)) :
    Except String (Option Int) :=
  match pick cols (colAliases "domain_authority") with
  | some c => (cellToInt (getCell row c)).map some
  | none => .ok none

/-- The Python idiom `(col and row[col])` for an `Optional[str]`
field: `None` when the field has no mapped column, else the cell. -/
def optField (cols : List String) (row : List (String × CellValue))
    (field : String) : Option String :=
  (pick cols (colAliases field)).bind (fun c => cellOptStr (getCell row c))

/-- The body of the per-row `try` block (src/main.py:668-683): extract
and coerce each field via the column map, derive the risk tier, and
build the normalized record.  DA coercion failure aborts the row. -/
def processRow (cols : List String) (row : List (String × CellValue)) :
    Except String Backlink :=
  match extractDA cols row with
  | .error e => .error e
  | .ok da =>
    let nofollow_val : Option Bool :=
      (pick cols (colAliases "nofollow")).map (fun c => parse_bool (getCell row c))
    let link_type_val : Option String := optField cols row "link_type"
    .ok
      { backlink_source :=
          match pick cols (colAliases "backlink_source") with
          | some c =>
            let v := getCell row c
            if cellTruthy v then pyStr v else urlFallback row
          | none => urlFallback row
        anchor_text := optField cols row "anchor_text"
        target_url := optField cols row "target_url"
        domain_authority := da
        nofollow := nofollow_val
        date_found :=
          match pick cols (colAliases "date_found") with
          | some c => some (.cellDate (getCell row c))
          | none => some .ingestionTime
        link_type := link_type_val
        source_domain := optField cols row "source_domain"
        risk_level := some (calculate_risk_level da nofollow_val link_type_val) }

/-- The import loop's running state: the two counters and the records
added to the session so far. -/
structure ImpState where
  inserted : Nat
  errors : Nat
  persisted : List Backlink
deriving DecidableEq, Repr

/-- One iteration of the import loop (src/main.py:666-689): a row that
processes cleanly is added and counted as inserted; a row whose
processing raises is counted as an error and skipped, adding
nothing. -/
def impStep (cols : List String) (st : ImpState)
    (row : List (String × CellValue)) : ImpState :=
  match processRow cols row with
  | .ok bk => { st with inserted := st.inserted + 1, persisted := st.persisted ++ [bk] }
  | .error _ => { st with errors := st.errors + 1 }

/-- The import report returned to the caller (src/main.py:692-698). -/
structure ImportReport where
  inserted : Nat
  errors : Nat
  total_rows : Nat
deriving DecidableEq, Repr

/-- Outcome of one import call: the report and the records persisted
by the committed session. -/
structure ImportOutcome where
  report : ImportReport
  persisted : List Backlink
deriving DecidableEq, Repr

/-- `import_backlinks` (src/main.py:624-698): an empty frame is
rejected with the 400 validation error before the loop runs (the
inner `HTTPException(400, "CSV file is empty")`, re-wrapped by the
outer parse handler, still surfaces as a 400 and aborts the call);
otherwise the loop runs over the rows and the report is returned. -/
def import_backlinks (b : Batch) : Except String ImportOutcome :=
  if b.rows.isEmpty then .error "CSV file is empty"
  else
    let st := b.rows.foldl (impStep b.columns) ⟨0, 0, []⟩
    .ok ⟨⟨st.inserted, st.errors, b.rows.length⟩, st.persisted⟩

/-- The loop grows `inserted + errors` by exactly one per row. -/
lemma impFold_counts (cols : List String)
    (rows : List (List (String × CellValue))) :
    ∀ st : ImpState,
      (rows.foldl (impStep cols) st).inserted + (rows.foldl (impStep cols) st).errors =
        st.inserted + st.errors + rows.length := by
  induction rows with
  | nil => intro st; simp
  | cons r rs ih =>
    intro st
    simp only [List.foldl_cons, List.length_cons]
    rw [ih]
    cases h : processRow cols r <;> simp [impStep, h] <;> omega

/-- The loop adds exactly one persisted record per inserted row and
none for an errored row. -/
lemma impFold_persisted (cols : List String)
    (rows : List (List (String × CellValue))) :
    ∀ st : ImpState,
      (rows.foldl (impStep cols) st).persisted.length + st.inserted =
        (rows.foldl (impStep cols) st).inserted + st.persisted.length := by
  induction rows with
  | nil => intro st; simp only [List.foldl_nil]; omega
  | cons r rs ih =>
    intro st
    simp only [List.foldl_cons]
    have := ih (impStep cols st r)
    cases h : processRow cols r <;> simp [impStep, h] at this ⊢ <;> omega

/-- C6: whenever the importer returns a report, inserted + errors is
bounded by (in fact equals) the total row count, the reported total is
the input row count, and exactly the inserted rows are persisted — a
row that errors during extraction or coercion is skipped and persists
nothing, leaving the other rows unaffected. -/
theorem import_report_counts_and_persistence (b : Batch) (out : ImportOutcome)
    (h : import_backlinks b = .ok out) :
    out.report.inserted + out.report.errors ≤ out.report.total_rows ∧
    out.report.total_rows = b.rows.length ∧
    out.persisted.length = out.report.inserted := by
  by_cases hemp : b.rows.isEmpty
  · simp [import_backlinks, hemp] at h
  · simp only [import_backlinks] at h
    rw [if_neg hemp] at h
    simp only [Except.ok.injEq] at h
    subst h
    have hc := impFold_counts b.columns b.rows ⟨0, 0, []⟩
    have hp := impFold_persisted b.columns b.rows ⟨0, 0, []⟩
    simp only at hc hp ⊢
    simp only [List.length_nil] at hc hp
    refine ⟨by omega, trivial, by omega⟩

/-- The well-formed row of the two-row batch: a source URL, an anchor
and a numeric domain-authority cell. -/
def wellFormedRow : List (String × CellValue) :=
  [("url_from", .str "https://blog.example.com/post"),
   ("anchor_text", .str "great tools"),
   ("da", .int 45)]

/-- The malformed row of the two-row batch: the CSV line supplies none
of the mapped columns, so each mapped cell is NaN; `int(NaN)` raises
during DA coercion. -/
def emptyCellsRow : List (String × CellValue) :=
  [("url_from", .nan), ("anchor_text", .nan), ("da", .nan)]

/-- A two-row batch with one well-formed row and one row missing every
mappable value. -/
def c3Batch : Batch :=
  ⟨["url_from", "anchor_text", "da"], [wellFormedRow, emptyCellsRow]⟩

/-- The report of an import call, when it returns one. -/
def reportOf : Except String ImportOutcome → Option ImportReport
  | .ok o => some o.report
  | .error _ => none

/-- C3: importing the two-row batch yields inserted = 1, errors = 1,
total rows = 2 — the malformed row raises on the `int` coercion of its
NaN domain-authority cell and is skipped. -/
theorem import_two_row_batch_report :
    reportOf (import_backlinks c3Batch) = some ⟨1, 1, 2⟩ := by
  decide

/-- C7: an empty input batch is rejected with the validation error
before any row processing begins; no report (and no record) is
produced. -/
theorem import_empty_batch_rejected (b : Batch) (h : b.rows = []) :
    import_backlinks b = .error "CSV file is empty" := by
  simp [import_backlinks, h]

/-- A frame with columns but no rows. -/
def emptyBatch : Batch :=
  ⟨["url_from", "anchor_text", "da"], []⟩

/-- Witness for C7 at the concrete empty batch. -/
theorem import_empty_batch_rejected_witness :
    import_backlinks emptyBatch = .error "CSV file is empty" :=
  import_empty_batch_rejected emptyBatch rfl

/-- The outcome of importing `c3Batch`: one normalized record with the
derived low risk tier, one error, two rows. -/
def c3Outcome : ImportOutcome where
  report := ⟨1, 1, 2⟩
  persisted :=
    [{ backlink_source := "https://blog.example.com/post"
       anchor_text := some "great tools"
       domain_authority := some 45
       date_found := some .ingestionTime
       risk_level := some "low" }]

/-- Witness for C6 at the concrete two-row batch. -/
theorem import_report_counts_and_persistence_witness :
    c3Outcome.report.inserted + c3Outcome.report.errors ≤ c3Outcome.report.total_rows ∧
    c3Outcome.report.total_rows = c3Batch.rows.length ∧
    c3Outcome.persisted.length = c3Outcome.report.inserted :=
  import_report_counts_and_persistence c3Batch c3Outcome (by rfl)

/-! ## Competitor Gap Simulator -/

/-- The static candidate pool of `generate_link_opportunities`
(src/main.py:963-969), verbatim: 22 entries. -/
def potential_domains : List String :=
  ["techcrunch.com", "forbes.com", "entrepreneur.com", "inc.com", "fastcompany.com",
   "businessinsider.com", "mashable.com", "venturebeat.com", "wired.com", "arstechnica.com",
   "industryblog.net", "smallbusiness.com", "startupnews.com", "digitaltrends.com",
   "marketingland.com", "searchengineland.com", "moz.com", "semrush.com", "hubspot.com",
   "contentmarketinginstitute.com", "socialmediaexaminer.com", "copyblogger.com"]

/-- Cut a character list at a separator character, keeping empty
pieces (Python's `str.split(sep)`). -/
def splitOnChar (sep : Char) : List Char → List Char → List (List Char)
  | cur, [] => [cur.reverse]
  | cur, c :: cs =>
    if c == sep then cur.reverse :: splitOnChar sep [] cs
    else splitOnChar sep (c :: cur) cs

/-- `domain.split('.')[0]`: the first dot-separated label. -/
def firstLabel (domain : String) : List Char :=
  (splitOnChar '.' [] domain.data).headD []

/-- `CompetitorAnalyzer.analyze_domain_authority` (src/main.py:939-949)
with the process's string hash passed explicitly: the four heuristic
buckets, each a fixed base plus `hash(domain)` reduced modulo the
bucket's range. -/
def analyze_domain_authority (h : String → Int) (domain : String) : Int :=
  if [".edu", ".gov"].any (fun tld => containsSub domain tld) then
    85 + (h domain) % 15
  else if ["techcrunch", "forbes", "cnn", "bbc"].any (fun brand => containsSub domain brand) then
    80 + (h domain) % 20
  else if (firstLabel domain).length > 15 then
    20 + (h domain) % 30
  else
    30 + (h domain) % 50

/-- `CompetitorAnalyzer.determine_effort_level` (src/main.py:951-958). -/
def determine_effort_level (da : Int) (domain : String) : String :=
  if da ≥ 80 then "Hard"
  else if da ≥ 50 then "Medium"
  else "Easy"

/-- One simulated gap opportunity (the dict of src/main.py:982-990). -/
structure GapOpportunity where
  linking_domain : String
  da : Int
  your_site : Bool
  competitor_a : Bool
  competitor_b : Bool
  effort_level : String
  potential_value : Int
deriving DecidableEq, Repr

/-- The string hashed for competitor slot A (src/main.py:976).  By
Python precedence, `domain + competitors[0] if competitors else ""` is
`(domain + competitors[0]) if competitors else ""`. -/
def compSlotA (competitors : List String) (domain : String) : String :=
  match competitors with
  | c0 :: _ => domain ++ c0
  | [] => ""

/-- The string hashed for competitor slot B (src/main.py:977), with
the same precedence reading for `len(competitors) > 1`. -/
def compSlotB (competitors : List String) (domain : String) : String :=
  match competitors with
  | _ :: c1 :: _ => domain ++ c1
  | _ => ""

/-- The loop body of `generate_link_opportunities`
(src/main.py:972-990): score the candidate, skip it below
`min_da`, derive the three presence flags from the hash, and append
the opportunity only when some competitor links and the own site does
not. -/
def gapStep (h : String → Int) (your_domain : String) (competitors : List String)
    (min_da : Int) (gaps : List GapOpportunity) (domain : String) :
    List GapOpportunity :=
  let da := analyze_domain_authority h domain
  if da ≥ min_da then
    let has_comp_a := (h (compSlotA competitors domain)) % 3 == 0
    let has_comp_b := (h (compSlotB competitors domain)) % 3 == 0
    let your_site_linked := (h (domain ++ your_domain)) % 5 == 0
    if (has_comp_a || has_comp_b) && !your_site_linked then
      gaps ++ [{ linking_domain := domain
                 da := da
                 your_site := your_site_linked
                 competitor_a := has_comp_a
                 competitor_b := has_comp_b
                 effort_level := determine_effort_level da domain
                 potential_value := min da 100 }]
    else gaps
  else gaps

/-- Stable insertion keeping descending `da` order: the new element
goes after every already-placed element of `da` at least its own. -/
def insertByDaDesc (x : GapOpportunity) : List GapOpportunity → List GapOpportunity
  | [] => [x]
  | y :: ys => if x.da ≥ y.da then x :: y :: ys else y :: insertByDaDesc x ys

/-- `sorted(gaps, key=lambda x: x["da"], reverse=True)`: a stable
descending sort by `da`. -/
def sortByDaDesc : List GapOpportunity → List GapOpportunity
  | [] => []
  | x :: xs => insertByDaDesc x (sortByDaDesc xs)

/-- `CompetitorAnalyzer.generate_link_opportunities`
(src/main.py:960-992) with the process's string hash passed
explicitly: fold the loop body over the first 15 pool entries, then
sort descending by `da`. -/
def generate_link_opportunities (h : String → Int) (your_domain : String)
    (competitors : List String) (min_da : Int) : List GapOpportunity :=
  sortByDaDesc
    ((potential_domains.take 15).foldl (gapStep h your_domain competitors min_da) [])

/-- Insertion preserves membership. -/
lemma mem_insertByDaDesc (g x : GapOpportunity) (l : List GapOpportunity) :
    g ∈ insertByDaDesc x l ↔ g = x ∨ g ∈ l := by
  induction l with
  | nil => simp [insertByDaDesc]
  | cons y ys ih =>
    simp only [insertByDaDesc]
    by_cases hxy : x.da ≥ y.da
    · simp [hxy]
    · simp only [if_neg hxy, List.mem_cons, ih]
      tauto

/-- Sorting preserves membership. -/
lemma mem_sortByDaDesc (g : GapOpportunity) (l : List GapOpportunity) :
    g ∈ sortByDaDesc l ↔ g ∈ l := by
  induction l with
  | nil => simp [sortByDaDesc]
  | cons x xs ih => simp [sortByDaDesc, mem_insertByDaDesc, ih]

/-- Insertion adds one element. -/
lemma length_insertByDaDesc (x : GapOpportunity) (l : List GapOpportunity) :
    (insertByDaDesc x l).length = l.length + 1 := by
  induction l with
  | nil => rfl
  | cons y ys ih =>
    simp only [insertByDaDesc]
    by_cases hxy : x.da ≥ y.da
    · simp [hxy]
    · simp [if_neg hxy, ih]

/-- Sorting preserves length. -/
lemma length_sortByDaDesc (l : List GapOpportunity) :
    (sortByDaDesc l).length = l.length := by
  induction l with
  | nil => rfl
  | cons x xs ih => simp [sortByDaDesc, length_insertByDaDesc, ih]

/-- An element of the list `gapStep` produces was already accumulated
or is the freshly appended opportunity: scored at least `min_da`, with
some competitor flag set, the own-site flag clear, and the current
candidate as its domain. -/
lemma mem_gapStep (h : String → Int) (y : String) (comps : List String) (m : Int)
    (acc : List GapOpportunity) (d : String) (g : GapOpportunity)
    (hg : g ∈ gapStep h y comps m acc d) :
    g ∈ acc ∨
      ((g.competitor_a = true ∨ g.competitor_b = true) ∧ g.your_site = false ∧
        m ≤ g.da ∧ g.linking_domain = d) := by
  simp only [gapStep] at hg
  split_ifs at hg with hda hflags
  · rcases List.mem_append.mp hg with hacc | hnew
    · exact Or.inl hacc
    · right
      obtain rfl := List.mem_singleton.mp hnew
      simp only [Bool.and_eq_true, Bool.or_eq_true, Bool.not_eq_true'] at hflags
      exact ⟨hflags.1, hflags.2, hda, rfl⟩
  · exact Or.inl hg
  · exact Or.inl hg

/-- `gapStep` grows the accumulator by at most one element. -/
lemma length_gapStep (h : String → Int) (y : String) (comps : List String) (m : Int)
    (acc : List GapOpportunity) (d : String) :
    (gapStep h y comps m acc d).length ≤ acc.length + 1 := by
  simp only [gapStep]
  split_ifs <;> simp

/-- Every element accumulated by folding `gapStep` over a candidate
list was in the initial accumulator or satisfies the gap invariant for
one of the candidates. -/
lemma mem_gapFold (h : String → Int) (y : String) (comps : List String) (m : Int)
    (doms : List String) :
    ∀ (acc : List GapOpportunity) (g : GapOpportunity),
      g ∈ doms.foldl (gapStep h y comps m) acc →
      g ∈ acc ∨
        ((g.competitor_a = true ∨ g.competitor_b = true) ∧ g.your_site = false ∧
          m ≤ g.da ∧ g.linking_domain ∈ doms) := by
  induction doms with
  | nil => intro acc g hg; exact Or.inl hg
  | cons d ds ih =>
    intro acc g hg
    rcases ih (gapStep h y comps m acc d) g hg with hstep | hrest
    · rcases mem_gapStep h y comps m acc d g hstep with hacc | hnew
      · exact Or.inl hacc
      · exact Or.inr ⟨hnew.1, hnew.2.1, hnew.2.2.1, by simp [hnew.2.2.2]⟩
    · exact Or.inr ⟨hrest.1, hrest.2.1, hrest.2.2.1, List.mem_cons_of_mem _ hrest.2.2.2⟩

/-- Folding `gapStep` grows the accumulator by at most one element per
candidate. -/
lemma length_gapFold (h : String → Int) (y : String) (comps : List String) (m : Int)
    (doms : List String) :
    ∀ acc : List GapOpportunity,
      (doms.foldl (gapStep h y comps m) acc).length ≤ acc.length + doms.length := by
  induction doms with
  | nil => intro acc; simp
  | cons d ds ih =>
    intro acc
    calc (ds.foldl (gapStep h y comps m) (gapStep h y comps m acc d)).length
        ≤ (gapStep h y comps m acc d).length + ds.length := ih _
      _ ≤ acc.length + 1 + ds.length := by
          have := length_gapStep h y comps m acc d; omega
      _ = acc.length + (d :: ds).length := by simp; omega

/-- C5: every surfaced opportunity has some competitor-presence flag
set, the own-site flag clear, and authority at least `min_da` — for
every process hash, inputs and minimum; nothing violating these is
surfaced. -/
theorem gap_opportunities_invariant (h : String → Int) (your_domain : String)
    (competitors : List String) (min_da : Int) (g : GapOpportunity)
    (hg : g ∈ generate_link_opportunities h your_domain competitors min_da) :
    (g.competitor_a = true ∨ g.competitor_b = true) ∧ g.your_site = false ∧
      min_da ≤ g.da := by
  rw [generate_link_opportunities, mem_sortByDaDesc] at hg
  rcases mem_gapFold h your_domain competitors min_da
      (potential_domains.take 15) [] g hg with habs | hinv
  · simp at habs
  · exact ⟨hinv.1, hinv.2.1, hinv.2.2.1⟩

/-- The opportunity the constant hash 3 produces for techcrunch.com:
brand bucket 80 + 3 % 20 = 83, both competitor flags from 3 % 3 = 0,
own-site flag from 3 % 5 ≠ 0. -/
def sampleGap : GapOpportunity where
  linking_domain := "techcrunch.com"
  da := 83
  your_site := false
  competitor_a := true
  competitor_b := true
  effort_level := "Hard"
  potential_value := 83

/-- Witness for C5 at the constant hash 3 and concrete inputs. -/
theorem gap_opportunities_invariant_witness :
    (sampleGap.competitor_a = true ∨ sampleGap.competitor_b = true) ∧
    sampleGap.your_site = false ∧ (0 : Int) ≤ sampleGap.da :=
  gap_opportunities_invariant (fun _ => 3) "example.com"
    ["competitor-a.com", "competitor-b.com"] 0 sampleGap (by decide)

/-- C4: the gap results depend on the process's string hash — the
same arguments evaluated under two hash functions (two processes with
different `PYTHONHASHSEED` salts) yield different results, so
`generateGaps` is not deterministic across processes.  (Under the
constant hash 0 every candidate's own-site flag is `0 % 5 == 0`, so
nothing is surfaced; under the constant hash 3 techcrunch.com is.) -/
theorem gap_results_depend_on_string_hash :
    generate_link_opportunities (fun _ => 3) "example.com"
        ["competitor-a.com", "competitor-b.com"] 0 ≠
      generate_link_opportunities (fun _ => 0) "example.com"
        ["competitor-a.com", "competitor-b.com"] 0 := by
  decide

/-- Candidates 16..22 of the pool do not occur among the first 15. -/
lemma take15_drop15_disjoint :
    ∀ d ∈ potential_domains.take 15, d ∉ potential_domains.drop 15 := by
  decide

/-- C10: at most 15 opportunities are returned; the pool has 22
entries, and every surfaced opportunity's domain is one of the first
15 pool entries — never one of the last 7. -/
theorem gap_pool_truncated_to_first_15 (h : String → Int) (your_domain : String)
    (competitors : List String) (min_da : Int) :
    (generate_link_opportunities h your_domain competitors min_da).length ≤ 15 ∧
    potential_domains.length = 22 ∧
    ∀ g ∈ generate_link_opportunities h your_domain competitors min_da,
      g.linking_domain ∈ potential_domains.take 15 ∧
        g.linking_domain ∉ potential_domains.drop 15 := by
  refine ⟨?_, by decide, ?_⟩
  · rw [generate_link_opportunities, length_sortByDaDesc]
    have hlen := length_gapFold h your_domain competitors min_da
      (potential_domains.take 15) []
    have ht : (potential_domains.take 15).length = 15 := by decide
    simp only [List.length_nil] at hlen
    omega
  · intro g hg
    rw [generate_link_opportunities, mem_sortByDaDesc] at hg
    rcases mem_gapFold h your_domain competitors min_da
        (potential_domains.take 15) [] g hg with habs | hinv
    · simp at habs
    · exact ⟨hinv.2.2.2, take15_drop15_disjoint _ hinv.2.2.2⟩

/-- Witness for C10 at the constant hash 3 and concrete inputs. -/
theorem gap_pool_truncated_to_first_15_witness :
    (generate_link_opportunities (fun _ => 3) "example.com"
        ["competitor-a.com", "competitor-b.com"] 0).length ≤ 15 ∧
    sampleGap.linking_domain ∈ potential_domains.take 15 ∧
      sampleGap.linking_domain ∉ potential_domains.drop 15 :=
  ⟨(gap_pool_truncated_to_first_15 (fun _ => 3) "example.com"
      ["competitor-a.com", "competitor-b.com"] 0).1,
    (gap_pool_truncated_to_first_15 (fun _ => 3) "example.com"
      ["competitor-a.com", "competitor-b.com"] 0).2.2 sampleGap (by decide)⟩
